import Mathlib

/-!
Shallow embedding of the printer transport gateway in `src/src-tauri/src/lib.rs`
(crate `binacepos`): the TCP, serial and spooler transports and the two
enumerators, with the OS and library calls abstracted as explicit outcome
environments and event traces.  Machine integers are modelled as `Nat`, with
an explicit `% 2^32` where the source casts to `u32`.  Each transport command
returns the `Result` of the source function together with the list of OS
calls it performed, in order.
-/

/-! ## String helpers

Lean's built-in `String` order and `String.trim` are opaque to the kernel, so
the byte-lexicographic comparison used by Rust's `Ord for String` and the
blank test `s.trim().is_empty()` are modelled directly on the character
list of the string. -/

/-- Lexicographic comparison of character lists: the model of Rust's
`Ord::cmp` on `String` restricted to "less or equal". -/
def chLe : List Char → List Char → Bool
  | [], _ => true
  | _ :: _, [] => false
  | a :: as, b :: bs => if a < b then true else if b < a then false else chLe as bs

/-- Lexicographic "less or equal" on strings, via their character lists. -/
def strLe (a b : String) : Bool := chLe a.data b.data

/-- Model of Rust's `s.trim().is_empty()`: the string has no
non-whitespace character. -/
def trimEmpty (s : String) : Bool := s.data.all Char.isWhitespace

theorem chLe_cons (a b : Char) (as bs : List Char) :
    chLe (a :: as) (b :: bs) = true ↔ a < b ∨ (a = b ∧ chLe as bs = true) := by
  simp only [chLe]
  split
  · simp_all
  · split
    · next h1 h2 =>
      constructor
      · intro h; cases h
      · rintro (h | ⟨rfl, h⟩)
        · exact absurd h h1
        · exact absurd h2 (lt_irrefl a)
    · next h1 h2 =>
      have hab : a = b := le_antisymm (le_of_not_lt h2) (le_of_not_lt h1)
      simp [hab, h1]

theorem chLe_total (a b : List Char) : chLe a b = true ∨ chLe b a = true := by
  induction a generalizing b with
  | nil => exact Or.inl rfl
  | cons x xs ih =>
    cases b with
    | nil => exact Or.inr rfl
    | cons y ys =>
      rcases lt_trichotomy x y with h | h | h
      · exact Or.inl ((chLe_cons _ _ _ _).mpr (Or.inl h))
      · subst h
        rcases ih ys with h2 | h2
        · exact Or.inl ((chLe_cons _ _ _ _).mpr (Or.inr ⟨rfl, h2⟩))
        · exact Or.inr ((chLe_cons _ _ _ _).mpr (Or.inr ⟨rfl, h2⟩))
      · exact Or.inr ((chLe_cons _ _ _ _).mpr (Or.inl h))

theorem chLe_trans (a b c : List Char) (hab : chLe a b = true) (hbc : chLe b c = true) :
    chLe a c = true := by
  induction a generalizing b c with
  | nil => rfl
  | cons x xs ih =>
    cases b with
    | nil => cases hab
    | cons y ys =>
      cases c with
      | nil => cases hbc
      | cons z zs =>
        rcases (chLe_cons _ _ _ _).mp hab with h1 | ⟨rfl, h1⟩
        · rcases (chLe_cons _ _ _ _).mp hbc with h2 | ⟨rfl, h2⟩
          · exact (chLe_cons _ _ _ _).mpr (Or.inl (lt_trans h1 h2))
          · exact (chLe_cons _ _ _ _).mpr (Or.inl h1)
        · rcases (chLe_cons _ _ _ _).mp hbc with h2 | ⟨rfl, h2⟩
          · exact (chLe_cons _ _ _ _).mpr (Or.inl h2)
          · exact (chLe_cons _ _ _ _).mpr (Or.inr ⟨rfl, ih ys zs h1 h2⟩)

/-! ## Chunking

Model of Rust's `slice::chunks(n)` as used by `data.chunks(512)` in
`serial_print_escpos`: successive sub-slices of length `n`, the last one
possibly shorter, and no chunk at all for an empty slice. -/

/-- Model of `slice::chunks`: split a list into consecutive pieces of
length `n`, the last piece possibly shorter; the empty list yields no
pieces.  (The source only ever calls this with `n = 512`.) -/
def chunks {α : Type} (n : Nat) : List α → List (List α)
  | [] => []
  | x :: xs =>
    if n = 0 then [] else List.take n (x :: xs) :: chunks n (List.drop n (x :: xs))
termination_by l => l.length
decreasing_by
  simp only [List.length_drop, List.length_cons]
  omega

theorem chunks_flatten {α : Type} (n : Nat) (hn : n ≠ 0) (l : List α) :
    (chunks n l).flatten = l := by
  induction l using chunks.induct n with
  | case1 => rw [chunks]; rfl
  | case2 x xs h => exact absurd h hn
  | case3 x xs h ih =>
    rw [chunks]
    simp [h, ih]

theorem chunks_length_le {α : Type} (n : Nat) (l : List α) :
    ∀ c ∈ chunks n l, c.length ≤ n := by
  induction l using chunks.induct n with
  | case1 => rw [chunks]; intro c hc; cases hc
  | case2 x xs h => rw [chunks]; simp [h]
  | case3 x xs h ih =>
    rw [chunks]
    simp only [h, if_false, List.mem_cons]
    rintro c (rfl | hc)
    · simp
    · exact ih c hc

theorem chunks_ne_nil {α : Type} (n : Nat) (l : List α) :
    ∀ c ∈ chunks n l, c ≠ [] := by
  induction l using chunks.induct n with
  | case1 => rw [chunks]; intro c hc; cases hc
  | case2 x xs h => rw [chunks]; simp [h]
  | case3 x xs h ih =>
    rw [chunks]
    simp only [h, if_false, List.mem_cons]
    rintro c (rfl | hc)
    · simp only [ne_eq, List.take_eq_nil_iff]
      push_neg
      exact ⟨h, by simp⟩
    · exact ih c hc

theorem chunks_dropLast_length {α : Type} (n : Nat) (l : List α) :
    ∀ c ∈ (chunks n l).dropLast, c.length = n := by
  induction l using chunks.induct n with
  | case1 => rw [chunks]; intro c hc; cases hc
  | case2 x xs h => rw [chunks]; simp [h]
  | case3 x xs h ih =>
    rw [chunks]
    simp only [h, if_false]
    intro c hc
    rcases eq_or_ne (chunks n (List.drop n (x :: xs))) [] with hrest | hrest
    · rw [hrest] at hc; cases hc
    · rw [List.dropLast_cons_of_ne_nil hrest] at hc
      rcases List.mem_cons.mp hc with rfl | hc2
      · have hlong : n ≤ (x :: xs).length := by
          by_contra hshort
          push_neg at hshort
          have hdrop : List.drop n (x :: xs) = [] :=
            List.drop_eq_nil_of_le (Nat.le_of_lt hshort)
          rw [hdrop] at hrest
          exact hrest (by rw [chunks])
        simpa using List.length_take_of_le hlong
      · exact ih c hc2

theorem chunks_length_sum {α : Type} (n : Nat) (hn : n ≠ 0) (l : List α) :
    ((chunks n l).map List.length).sum = l.length := by
  rw [← List.length_flatten, chunks_flatten n hn]

/-! ## TCP transport: `tcp_print_escpos`

Source lines 17..40.  The socket address is opaque; `to_socket_addrs`,
`connect_timeout`, `write_all` and `flush` are abstracted as an outcome
environment.  `set_write_timeout` and `set_nodelay` have their results
discarded by the source (`let _ = ...`) and do not influence control flow,
so they are not part of the environment. -/

/-- Outcomes of the OS calls made by `tcp_print_escpos`: each `Option String`
is `some cause` when the corresponding call fails with that cause, `none`
when it succeeds.  `addrs` is the address list yielded by a successful
`to_socket_addrs`; `flushErr` is the outcome of the final `stream.flush()`,
whose result the source discards. -/
structure TcpEnv where
  resolveErr : Option String
  addrs : List Nat
  connectErr : Option String
  writeErr : Option String
  flushErr : Option String

/-- Embedding of `tcp_print_escpos` (the closure run on the blocking worker):
resolve, take the first address, connect with timeout, write the whole
buffer, then best-effort flush. -/
def tcp_print_escpos (env : TcpEnv) (_host : String) (_port : Nat) (_data : List Nat) :
    Except String Unit :=
  match env.resolveErr with
  | some e => Except.error ("Unable to resolve host: " ++ e)
  | none =>
    match env.addrs.head? with
    | none => Except.error "Unable to resolve host"
    | some _addr =>
      match env.connectErr with
      | some e => Except.error ("TCP connect failed: " ++ e)
      | none =>
        match env.writeErr with
        | some e => Except.error ("TCP write failed: " ++ e)
        | none =>
          Except.ok ()

/-! ## Port enumerator: `list_serial_ports`

Source lines 43..88.  The `serialport::available_ports()` result is the
input list; `sort_by(|a, b| a.port_name.cmp(&b.port_name))` is a stable
sort by name, modelled with `List.insertionSort` under the
byte-lexicographic order `strLe`. -/

/-- Model of `serialport::UsbPortInfo`: the fields `list_serial_ports`
reads. -/
structure UsbPortInfo where
  vid : Nat
  pid : Nat
  serial_number : Option String
  manufacturer : Option String
  product : Option String

/-- Model of `serialport::SerialPortType`. -/
inductive SerialPortTypeInfo where
  | usbPort (info : UsbPortInfo)
  | bluetoothPort
  | pciPort
  | unknown

/-- Model of `serialport::SerialPortInfo`: one entry of the OS enumeration. -/
structure SerialPortInfo where
  port_name : String
  port_type : SerialPortTypeInfo

/-- The DTO struct of the source (lines 6..14). -/
structure SerialPortDto where
  port_name : String
  port_type : String
  manufacturer : Option String
  product : Option String
  serial_number : Option String
  vid : Option Nat
  pid : Option Nat

/-- Name order used by the sort in `list_serial_ports`. -/
def portInfoLe (a b : SerialPortInfo) : Prop := strLe a.port_name b.port_name = true

instance : DecidableRel portInfoLe := fun a b =>
  inferInstanceAs (Decidable (strLe a.port_name b.port_name = true))

instance : IsTotal SerialPortInfo portInfoLe :=
  ⟨fun a b => chLe_total a.port_name.data b.port_name.data⟩

instance : IsTrans SerialPortInfo portInfoLe :=
  ⟨fun a b c => chLe_trans a.port_name.data b.port_name.data c.port_name.data⟩

/-- The per-port DTO construction of the source (lines 51..81): default
fields, then the match on `port_type`. -/
def toDto (p : SerialPortInfo) : SerialPortDto :=
  let dto : SerialPortDto :=
    { port_name := p.port_name
      port_type := "unknown"
      manufacturer := none
      product := none
      serial_number := none
      vid := none
      pid := none }
  match p.port_type with
  | SerialPortTypeInfo.usbPort info =>
    { dto with
      port_type := "usb"
      manufacturer := info.manufacturer
      product := info.product
      serial_number := info.serial_number
      vid := some info.vid
      pid := some info.pid }
  | SerialPortTypeInfo.bluetoothPort => { dto with port_type := "bluetooth" }
  | SerialPortTypeInfo.pciPort => { dto with port_type := "pci" }
  | SerialPortTypeInfo.unknown => dto

/-- Embedding of `list_serial_ports` (the closure run on the blocking
worker) on a successful enumeration `ports`: sort by `port_name`, then map
each entry to its DTO. -/
def list_serial_ports (ports : List SerialPortInfo) : List SerialPortDto :=
  (ports.insertionSort portInfoLe).map toDto

/-! ## Serial transport: `serial_print_escpos`

Source lines 91..111.  The opened port is abstracted as an outcome
environment; the calls the function makes (open, per-chunk `write_all`,
`thread::sleep`, `flush`) are recorded as an event trace in program
order. -/

/-- Errors of `serial_print_escpos`, one constructor per `format!` site of
the source, carrying the interpolated port name and underlying cause. -/
inductive SerialErr where
  | openFail (port cause : String)
  | writeFail (port cause : String)
  | flushFail (port cause : String)
deriving DecidableEq

/-- Rendering of `SerialErr` to the exact `format!` strings of the source. -/
def SerialErr.render : SerialErr → String
  | SerialErr.openFail port cause => "Unable to open serial port " ++ port ++ ": " ++ cause
  | SerialErr.writeFail port cause => "Serial write failed (" ++ port ++ "): " ++ cause
  | SerialErr.flushFail port cause => "Serial flush failed (" ++ port ++ "): " ++ cause

/-- Calls `serial_print_escpos` makes on the OS and the opened port, in
program order.  `sleep` records the millisecond argument of
`thread::sleep`; `write` records the chunk handed to `write_all`. -/
inductive SerialEvent where
  | openPort (name : String) (baud : Nat)
  | write (chunk : List Nat)
  | sleep (ms : Nat)
  | flush
deriving DecidableEq

/-- Outcomes of the calls made by `serial_print_escpos`: `openErr` for
`serialport::new(..).open()`, `writeErr i` for the `write_all` of the
`i`-th chunk, `flushErr` for the final `flush`; `some cause` is a failure
with that cause. -/
structure SerialEnv where
  openErr : Option String
  writeErr : Nat → Option String
  flushErr : Option String

/-- The `for chunk in data.chunks(512)` loop body of the source: write the
chunk (propagating a failure with `?`), then sleep 20 ms.  `i` is the index
of the first chunk of `cs` in the whole chunk sequence. -/
def writeLoop (env : SerialEnv) (port : String) :
    List (List Nat) → Nat → Except SerialErr Unit × List SerialEvent
  | [], _ => (Except.ok (), [])
  | c :: rest, i =>
    match env.writeErr i with
    | some e => (Except.error (SerialErr.writeFail port e), [SerialEvent.write c])
    | none =>
      let r := writeLoop env port rest (i + 1)
      (r.fst, SerialEvent.write c :: SerialEvent.sleep 20 :: r.snd)

/-- Embedding of `serial_print_escpos` (the closure run on the blocking
worker): open the named port at the given baud rate, write the data in
512-byte chunks with a 20 ms sleep after each, then flush. -/
def serial_print_escpos (env : SerialEnv) (port : String) (baud : Nat) (data : List Nat) :
    Except SerialErr Unit × List SerialEvent :=
  match env.openErr with
  | some e => (Except.error (SerialErr.openFail port e), [])
  | none =>
    let r := writeLoop env port (chunks 512 data) 0
    match r.fst with
    | Except.error e => (Except.error e, SerialEvent.openPort port baud :: r.snd)
    | Except.ok _ =>
      match env.flushErr with
      | some e =>
        (Except.error (SerialErr.flushFail port e),
         SerialEvent.openPort port baud :: r.snd ++ [SerialEvent.flush])
      | none =>
        (Except.ok (), SerialEvent.openPort port baud :: r.snd ++ [SerialEvent.flush])

/-- Chunks handed to `write_all`, extracted from a trace in order. -/
def writesOf (t : List SerialEvent) : List (List Nat) :=
  t.filterMap fun e =>
    match e with
    | SerialEvent.write c => some c
    | _ => none

/-- Sleeps performed, extracted from a trace in order. -/
def sleepsOf (t : List SerialEvent) : List Nat :=
  t.filterMap fun e =>
    match e with
    | SerialEvent.sleep ms => some ms
    | _ => none

/-- The write/sleep sub-trace of a trace, keeping both kinds of event in
their relative order. -/
def pacedOf (t : List SerialEvent) : List SerialEvent :=
  t.filter fun e =>
    match e with
    | SerialEvent.write _ => true
    | SerialEvent.sleep _ => true
    | _ => false

/-- The trace the chunk loop produces when every write succeeds: each chunk
write followed by one 20 ms sleep. -/
def pacedTrace (cs : List (List Nat)) : List SerialEvent :=
  (cs.map fun c => [SerialEvent.write c, SerialEvent.sleep 20]).flatten

theorem writeLoop_ok (env : SerialEnv) (port : String)
    (hw : ∀ i, env.writeErr i = none) :
    ∀ (cs : List (List Nat)) (i : Nat),
      writeLoop env port cs i = (Except.ok (), pacedTrace cs) := by
  intro cs
  induction cs with
  | nil => intro i; rfl
  | cons c rest ih =>
    intro i
    simp only [writeLoop, hw i, ih (i + 1), pacedTrace, List.map_cons, List.flatten_cons]
    rfl

theorem writesOf_pacedTrace (cs : List (List Nat)) : writesOf (pacedTrace cs) = cs := by
  induction cs with
  | nil => rfl
  | cons c rest ih =>
    simp only [pacedTrace, List.map_cons, List.flatten_cons] at ih ⊢
    simpa [writesOf, List.filterMap_cons] using ih

theorem sleepsOf_pacedTrace (cs : List (List Nat)) :
    sleepsOf (pacedTrace cs) = List.replicate cs.length 20 := by
  induction cs with
  | nil => rfl
  | cons c rest ih =>
    simp only [pacedTrace, List.map_cons, List.flatten_cons] at ih ⊢
    simpa [sleepsOf, List.filterMap_cons, List.replicate] using ih

theorem pacedOf_pacedTrace (cs : List (List Nat)) :
    pacedOf (pacedTrace cs) = pacedTrace cs := by
  induction cs with
  | nil => rfl
  | cons c rest ih =>
    simp only [pacedTrace, List.map_cons, List.flatten_cons] at ih ⊢
    simpa [pacedOf, List.filter_cons] using ih

theorem pacedTrace_getElem (cs : List (List Nat)) :
    ∀ (i : Nat) (c : List Nat), cs[i]? = some c →
      (pacedTrace cs)[2 * i]? = some (SerialEvent.write c) ∧
      (pacedTrace cs)[2 * i + 1]? = some (SerialEvent.sleep 20) := by
  induction cs with
  | nil => intro i c hc; simp at hc
  | cons c0 rest ih =>
    intro i c hc
    cases i with
    | zero =>
      simp only [List.getElem?_cons_zero, Option.some.injEq] at hc
      subst hc
      constructor <;> simp [pacedTrace]
    | succ j =>
      simp only [List.getElem?_cons_succ] at hc
      have h2 : 2 * (j + 1) = (2 * j) + 2 := by ring
      have h3 : 2 * (j + 1) + 1 = (2 * j + 1) + 2 := by ring
      rcases ih j c hc with ⟨ihw, ihs⟩
      constructor
      · rw [h2]
        simpa [pacedTrace, List.map_cons, List.flatten_cons] using ihw
      · rw [h3]
        simpa [pacedTrace, List.map_cons, List.flatten_cons] using ihs

/-! ## Spooler transport: module `windows_printing` (Windows build)

Source lines 113..251.  The Win32 calls (`OpenPrinterW`, `StartDocPrinterW`,
`StartPagePrinter`, `WritePrinter`, `EndPagePrinter`, `EndDocPrinter`,
`ClosePrinter`) are abstracted as an outcome environment, and every call
performed is recorded in an event trace in program order.  The source
compares the out-parameter `written : u32` against `data.len() as u32`,
hence the `% 2^32` in the model. -/

namespace windows_printing

/-- Errors of `spooler_print_raw`, one constructor per `return Err(..)` site
of the source, carrying what the message interpolates. -/
inductive SpoolerErr where
  | validation
  | openFail (name : String)
  | startDocFail
  | startPageFail
  | writeFail (written total : Nat)
  | finalizeFail
deriving DecidableEq

/-- Rendering of `SpoolerErr` to the exact message strings of the source. -/
def SpoolerErr.render : SpoolerErr → String
  | SpoolerErr.validation => "Printer name is required"
  | SpoolerErr.openFail name => "Failed to open printer \x27" ++ name ++ "\x27"
  | SpoolerErr.startDocFail => "StartDocPrinter failed"
  | SpoolerErr.startPageFail => "StartPagePrinter failed"
  | SpoolerErr.writeFail written total =>
    "WritePrinter failed (written " ++ toString written ++ "/" ++ toString total ++ " bytes)"
  | SpoolerErr.finalizeFail => "Failed to finalize print job"

/-- Win32 print-spooler calls `spooler_print_raw` performs, in program
order.  `write` records the buffer handed to `WritePrinter`. -/
inductive SpoolerEvent where
  | openPrinter (name : String)
  | startDoc
  | startPage
  | write (data : List Nat)
  | endPage
  | endDoc
  | closePrinter
deriving DecidableEq

/-- Outcomes of the Win32 calls: `openOk` is `OpenPrinterW` returning
nonzero with a non-null handle; `jobId` is the `StartDocPrinterW` return
value (`0` means failure); `written` is the count `WritePrinter` stores in
its out-parameter (a `u32`); the four booleans are the nonzero-ness of the
other calls' return values. -/
structure SpoolerEnv where
  openOk : Bool
  jobId : Nat
  startPageOk : Bool
  writeOk : Bool
  written : Nat
  endPageOk : Bool
  endDocOk : Bool

/-- Number of `ClosePrinter` calls in a trace. -/
def closes : List SpoolerEvent → Nat
  | [] => 0
  | SpoolerEvent.closePrinter :: rest => closes rest + 1
  | _ :: rest => closes rest

/-- Number of `OpenPrinterW` calls in a trace. -/
def opens : List SpoolerEvent → Nat
  | [] => 0
  | SpoolerEvent.openPrinter _ :: rest => opens rest + 1
  | _ :: rest => opens rest

/-- Embedding of `windows_printing::spooler_print_raw`: validate the name,
open the printer, start a raw document and a page, write the whole buffer
once, then unconditionally end the page, end the document and close the
handle, and only then inspect the write and finalize outcomes. -/
def spooler_print_raw (env : SpoolerEnv) (printer_name : String) (data : List Nat) :
    Except SpoolerErr Unit × List SpoolerEvent :=
  if trimEmpty printer_name then
    (Except.error SpoolerErr.validation, [])
  else if env.openOk = false then
    (Except.error (SpoolerErr.openFail printer_name),
     [SpoolerEvent.openPrinter printer_name])
  else if env.jobId = 0 then
    (Except.error SpoolerErr.startDocFail,
     [SpoolerEvent.openPrinter printer_name, SpoolerEvent.startDoc,
      SpoolerEvent.closePrinter])
  else if env.startPageOk = false then
    (Except.error SpoolerErr.startPageFail,
     [SpoolerEvent.openPrinter printer_name, SpoolerEvent.startDoc,
      SpoolerEvent.startPage, SpoolerEvent.endDoc, SpoolerEvent.closePrinter])
  else
    let t := [SpoolerEvent.openPrinter printer_name, SpoolerEvent.startDoc,
              SpoolerEvent.startPage, SpoolerEvent.write data, SpoolerEvent.endPage,
              SpoolerEvent.endDoc, SpoolerEvent.closePrinter]
    if env.writeOk = false ∨ env.written ≠ data.length % 4294967296 then
      (Except.error (SpoolerErr.writeFail env.written data.length), t)
    else if env.endPageOk = false ∨ env.endDocOk = false then
      (Except.error SpoolerErr.finalizeFail, t)
    else
      (Except.ok (), t)

end windows_printing

/-! ## Spooler transport: module `windows_printing` (non-Windows build)

Source lines 253..262: the `#[cfg(not(target_os = "windows"))]` version of
the module, modelled under a distinct namespace since Lean has no
conditional compilation.  Both functions are total and make no OS call. -/

namespace nonwindows_printing

/-- Embedding of the non-Windows `list_windows_printers`: always the empty
list, as a success. -/
def list_windows_printers : Except String (List String) := Except.ok []

/-- Embedding of the non-Windows `spooler_print_raw`: always the
unsupported-platform error, for every name and buffer. -/
def spooler_print_raw (_printer_name : String) (_data : List Nat) : Except String Unit :=
  Except.error "Windows spooler transport is only available on Windows builds"

end nonwindows_printing

/-! ## Helper lemmas for the spooler transport -/

namespace windows_printing

/-- Trace of a `spooler_print_raw` run that reaches `WritePrinter`: all
seven calls, with the page/document teardown and the close unconditionally
after the write. -/
def fullTrace (printer_name : String) (data : List Nat) : List SpoolerEvent :=
  [SpoolerEvent.openPrinter printer_name, SpoolerEvent.startDoc, SpoolerEvent.startPage,
   SpoolerEvent.write data, SpoolerEvent.endPage, SpoolerEvent.endDoc,
   SpoolerEvent.closePrinter]

theorem spooler_print_raw_write_phase (env : SpoolerEnv) (printer_name : String)
    (data : List Nat) (hname : trimEmpty printer_name = false) (hopen : env.openOk = true)
    (hjob : env.jobId ≠ 0) (hpage : env.startPageOk = true) :
    spooler_print_raw env printer_name data =
      (if env.writeOk = false ∨ env.written ≠ data.length % 4294967296 then
        Except.error (SpoolerErr.writeFail env.written data.length)
      else if env.endPageOk = false ∨ env.endDocOk = false then
        Except.error SpoolerErr.finalizeFail
      else Except.ok (), fullTrace printer_name data) := by
  simp only [spooler_print_raw, hname, hopen, hjob, hpage, Bool.false_eq_true, if_false,
    Bool.true_eq_false, ite_false, fullTrace]
  split_ifs <;> rfl

end windows_printing

/-! ## Claim theorems -/

/-- C1: in `spooler_print_raw` on the spooler-capable platform, once the
printer handle has been opened the trace contains exactly one
`ClosePrinter` call, whatever the outcomes of `StartDocPrinter`,
`StartPagePrinter`, `WritePrinter` and the finalize calls — so no exit
path returns with the handle still open. -/
theorem C1_spooler_handle_closed (env : windows_printing.SpoolerEnv)
    (printer_name : String) (data : List Nat)
    (hname : trimEmpty printer_name = false) (hopen : env.openOk = true) :
    windows_printing.closes
        (windows_printing.spooler_print_raw env printer_name data).snd = 1 := by
  simp only [windows_printing.spooler_print_raw, hname, hopen, Bool.false_eq_true, if_false,
    Bool.true_eq_false, ite_false]
  split_ifs <;> rfl

/-- Witness for C1: a run in which every Win32 call succeeds closes the
handle exactly once. -/
theorem C1_spooler_handle_closed_witness :
    windows_printing.closes
        (windows_printing.spooler_print_raw ⟨true, 1, true, true, 2, true, true⟩
          "Receipt" [27, 64]).snd = 1 :=
  C1_spooler_handle_closed ⟨true, 1, true, true, 2, true, true⟩ "Receipt" [27, 64]
    (by decide) rfl

/-- C4 counterexample: a non-blank printer name that is unknown (the OS
open call fails for it) makes `spooler_print_raw` return the open-failure
error, not the validation error the claim requires, so the claim is false
for unknown names. -/
theorem C4_counterexample :
    (windows_printing.spooler_print_raw ⟨false, 1, true, true, 0, true, true⟩
        "NOPE" []).fst = Except.error (windows_printing.SpoolerErr.openFail "NOPE") ∧
    (windows_printing.spooler_print_raw ⟨false, 1, true, true, 0, true, true⟩
        "NOPE" []).fst ≠ Except.error windows_printing.SpoolerErr.validation := by
  constructor
  · rfl
  · intro h
    rw [show (windows_printing.spooler_print_raw ⟨false, 1, true, true, 0, true, true⟩
        "NOPE" []).fst = Except.error (windows_printing.SpoolerErr.openFail "NOPE")
      from rfl] at h
    simp at h

/-- C4 as amended: a blank (empty or whitespace-only) printer name fails
with the validation error before any OS call (the trace is empty), while a
non-blank name the OS cannot open fails with the open error and no handle
is ever closed because none was opened. -/
theorem C4_amended_blank_validation (env : windows_printing.SpoolerEnv)
    (printer_name : String) (data : List Nat) :
    (trimEmpty printer_name = true →
      (windows_printing.spooler_print_raw env printer_name data).fst =
          Except.error windows_printing.SpoolerErr.validation ∧
      (windows_printing.spooler_print_raw env printer_name data).snd = []) ∧
    (trimEmpty printer_name = false → env.openOk = false →
      (windows_printing.spooler_print_raw env printer_name data).fst =
          Except.error (windows_printing.SpoolerErr.openFail printer_name) ∧
      windows_printing.closes
          (windows_printing.spooler_print_raw env printer_name data).snd = 0) := by
  constructor
  · intro hblank
    simp [windows_printing.spooler_print_raw, hblank]
  · intro hname hopen
    refine ⟨?_, ?_⟩ <;>
      simp [windows_printing.spooler_print_raw, hname, hopen, windows_printing.closes]

/-- Witness for the amended C4: a whitespace-only name yields the
validation error with an empty trace, and an unknown non-blank name yields
the open error. -/
theorem C4_amended_blank_validation_witness :
    ((windows_printing.spooler_print_raw ⟨true, 1, true, true, 0, true, true⟩
        "  " [1]).fst = Except.error windows_printing.SpoolerErr.validation ∧
      (windows_printing.spooler_print_raw ⟨true, 1, true, true, 0, true, true⟩
        "  " [1]).snd = []) ∧
    (windows_printing.spooler_print_raw ⟨false, 1, true, true, 0, true, true⟩
        "LaserJet" [1]).fst =
      Except.error (windows_printing.SpoolerErr.openFail "LaserJet") :=
  ⟨(C4_amended_blank_validation ⟨true, 1, true, true, 0, true, true⟩ "  " [1]).1 (by decide),
   ((C4_amended_blank_validation ⟨false, 1, true, true, 0, true, true⟩ "LaserJet" [1]).2
     (by decide) rfl).1⟩

/-- C7: once `spooler_print_raw` reaches `WritePrinter`, the call succeeds
only if the OS-reported written count equals the buffer length, and a short
write is reported as the write error carrying the written and total byte
counts even when `WritePrinter` itself reported success; the error message
renders those counts. -/
theorem C7_spooler_exact_write (env : windows_printing.SpoolerEnv) (printer_name : String)
    (data : List Nat) (hname : trimEmpty printer_name = false) (hopen : env.openOk = true)
    (hjob : env.jobId ≠ 0) (hpage : env.startPageOk = true)
    (hlen : data.length < 4294967296) :
    ((windows_printing.spooler_print_raw env printer_name data).fst = Except.ok () →
      env.written = data.length) ∧
    (env.writeOk = true → env.written < data.length →
      (windows_printing.spooler_print_raw env printer_name data).fst =
        Except.error (windows_printing.SpoolerErr.writeFail env.written data.length)) := by
  have hmod : data.length % 4294967296 = data.length := Nat.mod_eq_of_lt hlen
  rw [windows_printing.spooler_print_raw_write_phase env printer_name data hname hopen hjob
    hpage]
  constructor
  · intro hok
    by_contra hne
    have hcond : env.writeOk = false ∨ env.written ≠ data.length % 4294967296 := by
      rw [hmod]; exact Or.inr hne
    rw [if_pos hcond] at hok
    exact absurd hok (by simp)
  · intro hwok hshort
    have hcond : env.writeOk = false ∨ env.written ≠ data.length % 4294967296 := by
      rw [hmod]; exact Or.inr (Nat.ne_of_lt hshort)
    rw [if_pos hcond]

/-- Witness for C7: the spec's scenario, a 20-byte buffer against which the
OS reports 10 bytes written with `WritePrinter` itself succeeding, applied
to the theorem; the rendered message states "10/20 bytes". -/
theorem C7_spooler_exact_write_witness :
    (windows_printing.spooler_print_raw ⟨true, 1, true, true, 10, true, true⟩
        "Receipt" (List.replicate 20 0)).fst =
      Except.error (windows_printing.SpoolerErr.writeFail 10 20) ∧
    windows_printing.SpoolerErr.render (windows_printing.SpoolerErr.writeFail 10 20) =
      "WritePrinter failed (written 10/20 bytes)" := by
  constructor
  · have h := (C7_spooler_exact_write ⟨true, 1, true, true, 10, true, true⟩ "Receipt"
      (List.replicate 20 0) (by decide) rfl (by decide) rfl (by simp)).2 rfl (by simp)
    simpa using h
  · rfl

/-- C10: when the write delivers every byte of the buffer but
`EndPagePrinter` or `EndDocPrinter` fails, `spooler_print_raw` still
returns an error (the finalize failure), even though the full buffer was
handed to the spooler; the handle is closed all the same. -/
theorem C10_spooler_finalize_error (env : windows_printing.SpoolerEnv)
    (printer_name : String) (data : List Nat)
    (hname : trimEmpty printer_name = false) (hopen : env.openOk = true)
    (hjob : env.jobId ≠ 0) (hpage : env.startPageOk = true)
    (hwok : env.writeOk = true) (hlen : data.length < 4294967296)
    (hwritten : env.written = data.length)
    (hfin : env.endPageOk = false ∨ env.endDocOk = false) :
    (windows_printing.spooler_print_raw env printer_name data).fst =
      Except.error windows_printing.SpoolerErr.finalizeFail ∧
    windows_printing.SpoolerEvent.write data ∈
      (windows_printing.spooler_print_raw env printer_name data).snd ∧
    windows_printing.closes
        (windows_printing.spooler_print_raw env printer_name data).snd = 1 := by
  have hmod : data.length % 4294967296 = data.length := Nat.mod_eq_of_lt hlen
  rw [windows_printing.spooler_print_raw_write_phase env printer_name data hname hopen hjob
    hpage]
  have hcond : ¬(env.writeOk = false ∨ env.written ≠ data.length % 4294967296) := by
    rw [hmod]
    push_neg
    exact ⟨by simp [hwok], hwritten⟩
  simp only [hcond, if_false, ite_false]
  refine ⟨?_, ?_, ?_⟩
  · simp [hfin]
  · simp [windows_printing.fullTrace]
  · rfl

/-- Witness for C10: a full 2-byte write whose `EndPagePrinter` fails still
produces the finalize error. -/
theorem C10_spooler_finalize_error_witness :
    (windows_printing.spooler_print_raw ⟨true, 1, true, true, 2, false, true⟩
        "Receipt" [7, 8]).fst =
      Except.error windows_printing.SpoolerErr.finalizeFail :=
  (C10_spooler_finalize_error ⟨true, 1, true, true, 2, false, true⟩ "Receipt" [7, 8]
    (by decide) rfl (by decide) rfl rfl (by decide) rfl (Or.inl rfl)).1

/-! ## Helper lemmas for the serial transport -/

theorem serial_trace_ok (env : SerialEnv) (port : String) (baud : Nat) (data : List Nat)
    (hopen : env.openErr = none) (hw : ∀ i, env.writeErr i = none) :
    (serial_print_escpos env port baud data).snd =
      SerialEvent.openPort port baud :: pacedTrace (chunks 512 data) ++
        [SerialEvent.flush] := by
  simp only [serial_print_escpos, hopen]
  rw [writeLoop_ok env port hw]
  cases hf : env.flushErr <;> simp

theorem writesOf_cons_append (port : String) (baud : Nat) (t : List SerialEvent) :
    writesOf (SerialEvent.openPort port baud :: t ++ [SerialEvent.flush]) = writesOf t := by
  simp [writesOf, List.filterMap_append]

theorem sleepsOf_cons_append (port : String) (baud : Nat) (t : List SerialEvent) :
    sleepsOf (SerialEvent.openPort port baud :: t ++ [SerialEvent.flush]) = sleepsOf t := by
  simp [sleepsOf, List.filterMap_append]

theorem pacedOf_cons_append (port : String) (baud : Nat) (t : List SerialEvent) :
    pacedOf (SerialEvent.openPort port baud :: t ++ [SerialEvent.flush]) = pacedOf t := by
  simp [pacedOf, List.filter_append]

theorem pacedTrace_sleep_mem (cs : List (List Nat)) (ms : Nat)
    (h : SerialEvent.sleep ms ∈ pacedTrace cs) : ms = 20 := by
  induction cs with
  | nil => cases h
  | cons c rest ih =>
    simp only [pacedTrace, List.map_cons, List.flatten_cons, List.cons_append,
      List.mem_cons] at h
    rcases h with h | h | h
    · cases h
    · cases h; rfl
    · exact ih (by simpa [pacedTrace] using h)

theorem chunks_two_le {α : Type} (n : Nat) (hn : n ≠ 0) (l : List α) (h : n < l.length) :
    2 ≤ (chunks n l).length := by
  by_contra hk
  push_neg at hk
  have hsum := chunks_length_sum n hn l
  have hmem : ∀ x ∈ (chunks n l).map List.length, x ≤ n := by
    intro x hx
    rcases List.mem_map.mp hx with ⟨c, hc, rfl⟩
    exact chunks_length_le n l c hc
  have hle := List.sum_le_card_nsmul ((chunks n l).map List.length) n hmem
  rw [hsum, List.length_map, smul_eq_mul] at hle
  have hsmall : (chunks n l).length ≤ 1 := by omega
  have h2 : (chunks n l).length * n ≤ 1 * n := Nat.mul_le_mul_right n hsmall
  omega

/-- C2: with the port open and every chunk write accepted, the chunks
handed to `write_all` by `serial_print_escpos` on a buffer longer than 512
bytes are exactly `chunks 512 data`: at least two of them, every chunk
except the last exactly 512 bytes, the last at most 512, their
concatenation in write order equal to the buffer, and the total bytes
written equal to its length. -/
theorem C2_serial_chunking (env : SerialEnv) (port : String) (baud : Nat) (data : List Nat)
    (hlen : 512 < data.length) (hopen : env.openErr = none)
    (hw : ∀ i, env.writeErr i = none) :
    writesOf (serial_print_escpos env port baud data).snd = chunks 512 data ∧
    2 ≤ (writesOf (serial_print_escpos env port baud data).snd).length ∧
    (∀ c ∈ (writesOf (serial_print_escpos env port baud data).snd).dropLast,
      c.length = 512) ∧
    (∀ c ∈ writesOf (serial_print_escpos env port baud data).snd, c.length ≤ 512) ∧
    (writesOf (serial_print_escpos env port baud data).snd).flatten = data ∧
    ((writesOf (serial_print_escpos env port baud data).snd).map List.length).sum =
      data.length := by
  rw [serial_trace_ok env port baud data hopen hw, writesOf_cons_append,
    writesOf_pacedTrace]
  exact ⟨rfl, chunks_two_le 512 (by decide) data hlen, chunks_dropLast_length 512 data,
    chunks_length_le 512 data, chunks_flatten 512 (by decide) data,
    chunks_length_sum 512 (by decide) data⟩

/-- Witness for C2: a 600-byte buffer on an all-success environment is
reassembled intact from the written chunks. -/
theorem C2_serial_chunking_witness :
    (writesOf (serial_print_escpos ⟨none, fun _ => none, none⟩ "COM3" 115200
        (List.replicate 600 0)).snd).flatten = List.replicate 600 0 :=
  (C2_serial_chunking ⟨none, fun _ => none, none⟩ "COM3" 115200 (List.replicate 600 0)
    (by rw [List.length_replicate]; norm_num) rfl (fun _ => rfl)).2.2.2.2.1

/-- C3: with the port open and every chunk write accepted, every sleep in
the trace of `serial_print_escpos` is exactly 20 ms, and between the writes
of any two consecutive chunks (positions `2i` and `2i + 2` of the
write/sleep sub-trace) there is a 20 ms sleep at position `2i + 1`. -/
theorem C3_serial_pacing (env : SerialEnv) (port : String) (baud : Nat) (data : List Nat)
    (hopen : env.openErr = none) (hw : ∀ i, env.writeErr i = none) :
    (∀ ms, SerialEvent.sleep ms ∈ (serial_print_escpos env port baud data).snd →
      ms = 20) ∧
    (∀ (i : Nat) (c1 c2 : List Nat),
      (chunks 512 data)[i]? = some c1 → (chunks 512 data)[i + 1]? = some c2 →
      (pacedOf (serial_print_escpos env port baud data).snd)[2 * i]? =
          some (SerialEvent.write c1) ∧
      (pacedOf (serial_print_escpos env port baud data).snd)[2 * i + 1]? =
          some (SerialEvent.sleep 20) ∧
      (pacedOf (serial_print_escpos env port baud data).snd)[2 * i + 2]? =
          some (SerialEvent.write c2)) := by
  rw [serial_trace_ok env port baud data hopen hw]
  constructor
  · intro ms hms
    simp only [List.mem_cons, List.mem_append, List.mem_singleton] at hms
    rcases hms with (h | h) | h | h
    · cases h
    · exact pacedTrace_sleep_mem (chunks 512 data) ms h
    · cases h
    · cases h
  · intro i c1 c2 h1 h2
    rw [pacedOf_cons_append, pacedOf_pacedTrace]
    rcases pacedTrace_getElem (chunks 512 data) i c1 h1 with ⟨hw1, hs1⟩
    rcases pacedTrace_getElem (chunks 512 data) (i + 1) c2 h2 with ⟨hw2, _⟩
    refine ⟨hw1, hs1, ?_⟩
    have h21 : 2 * (i + 1) = 2 * i + 2 := by ring
    rw [h21] at hw2
    exact hw2

/-- C9: for an empty buffer `serial_print_escpos` performs no chunk write
and no pacing sleep, can never fail with the write error, and succeeds
whenever open and flush succeed. -/
theorem C9_serial_empty (env : SerialEnv) (port : String) (baud : Nat) :
    writesOf (serial_print_escpos env port baud []).snd = [] ∧
    sleepsOf (serial_print_escpos env port baud []).snd = [] ∧
    (∀ (p c : String), (serial_print_escpos env port baud []).fst ≠
        Except.error (SerialErr.writeFail p c)) ∧
    (env.openErr = none → env.flushErr = none →
      (serial_print_escpos env port baud []).fst = Except.ok ()) := by
  have hchunks : chunks 512 ([] : List Nat) = [] := by rw [chunks]
  cases hopen : env.openErr with
  | some e =>
    simp only [serial_print_escpos, hopen]
    refine ⟨rfl, rfl, ?_, ?_⟩
    · intro p c h
      simp at h
    · intro h1 _h2
      cases h1
  | none =>
    simp only [serial_print_escpos, hopen, hchunks]
    cases hf : env.flushErr with
    | some e =>
      refine ⟨?_, ?_, ?_, ?_⟩
      · simp [writeLoop, writesOf]
      · simp [writeLoop, sleepsOf]
      · intro p c h
        simp [writeLoop] at h
      · intro _h1 h2
        cases h2
    | none =>
      refine ⟨?_, ?_, ?_, ?_⟩
      · simp [writeLoop, writesOf]
      · simp [writeLoop, sleepsOf]
      · intro p c h
        simp [writeLoop] at h
      · intro _h1 _h2
        simp [writeLoop]

/-- Witness for C9: an empty job on an all-success environment writes no
chunk. -/
theorem C9_serial_empty_witness :
    writesOf (serial_print_escpos ⟨none, fun _ => none, none⟩ "COM3" 9600 []).snd = [] :=
  (C9_serial_empty ⟨none, fun _ => none, none⟩ "COM3" 9600).1

theorem chunks_replicate_600 :
    chunks 512 (List.replicate 600 (0 : Nat)) =
      [List.replicate 512 0, List.replicate 88 0] := by
  have h1 : chunks 512 (List.replicate 600 (0 : Nat)) =
      List.replicate 512 0 :: chunks 512 (List.replicate 88 0) := by
    rw [show List.replicate 600 (0 : Nat) = 0 :: List.replicate 599 0 from rfl, chunks]
    rw [show (0 : Nat) :: List.replicate 599 0 = List.replicate 600 0 from rfl]
    rw [List.take_replicate, List.drop_replicate]
    norm_num
  have h2 : chunks 512 (List.replicate 88 (0 : Nat)) = [List.replicate 88 0] := by
    rw [show List.replicate 88 (0 : Nat) = 0 :: List.replicate 87 0 from rfl, chunks]
    rw [show (0 : Nat) :: List.replicate 87 0 = List.replicate 88 0 from rfl]
    rw [List.take_replicate, List.drop_replicate]
    norm_num
    rw [chunks]
  rw [h1, h2]

/-- Witness for C3: on a 600-byte buffer with an all-success environment,
the write/sleep sub-trace has a 20 ms sleep right after the first chunk
write and before the second. -/
theorem C3_serial_pacing_witness :
    (pacedOf (serial_print_escpos ⟨none, fun _ => none, none⟩ "COM3" 115200
        (List.replicate 600 0)).snd)[1]? = some (SerialEvent.sleep 20) := by
  have h := (C3_serial_pacing ⟨none, fun _ => none, none⟩ "COM3" 115200
    (List.replicate 600 0) rfl (fun _ => rfl)).2 0 (List.replicate 512 0)
    (List.replicate 88 0) (by rw [chunks_replicate_600]; rfl)
    (by rw [chunks_replicate_600]; rfl)
  exact h.2.1

/-! ## Port enumerator claims -/

theorem toDto_port_name (p : SerialPortInfo) : (toDto p).port_name = p.port_name := by
  rcases p with ⟨name, ty⟩
  cases ty <;> rfl

/-- C5 counterexample: `list_serial_ports` performs no deduplication, so an
enumeration that reports the same device name twice yields an output with
a duplicate name, refuting the no-duplicates half of the claim. -/
theorem C5_counterexample :
    ¬ ((list_serial_ports
        [⟨"COM1", SerialPortTypeInfo.unknown⟩, ⟨"COM1", SerialPortTypeInfo.unknown⟩]).map
          (fun d => d.port_name)).Nodup := by decide

/-- C5 as amended: the output of `list_serial_ports` is sorted ascending
lexicographically by device name, and its names are a permutation of the
enumerated names — so it contains no duplicates whenever the OS enumeration
itself reported no duplicate name, but duplicates in the enumeration pass
through. -/
theorem C5_amended_sorted_perm (ports : List SerialPortInfo) :
    List.Pairwise (fun a b => strLe a.port_name b.port_name = true)
      (list_serial_ports ports) ∧
    ((list_serial_ports ports).map (fun d => d.port_name)).Perm
      (ports.map (fun p => p.port_name)) ∧
    ((ports.map (fun p => p.port_name)).Nodup →
      ((list_serial_ports ports).map (fun d => d.port_name)).Nodup) := by
  have hsorted := List.sorted_insertionSort portInfoLe ports
  have hperm : ((ports.insertionSort portInfoLe).map (fun p => p.port_name)).Perm
      (ports.map (fun p => p.port_name)) :=
    (List.perm_insertionSort portInfoLe ports).map _
  have hmapname : (list_serial_ports ports).map (fun d => d.port_name) =
      (ports.insertionSort portInfoLe).map (fun p => p.port_name) := by
    simp [list_serial_ports, List.map_map, Function.comp, toDto_port_name]
  refine ⟨?_, ?_, ?_⟩
  · exact List.Pairwise.map toDto
      (fun a b hab => by simpa [toDto_port_name, portInfoLe] using hab) hsorted
  · rw [hmapname]; exact hperm
  · intro hnd
    rw [hmapname]
    exact (hperm.nodup_iff).mpr hnd

/-- Witness for the amended C5: two distinct names come out sorted and
still distinct. -/
theorem C5_amended_sorted_perm_witness :
    ((list_serial_ports
        [⟨"COM2", SerialPortTypeInfo.unknown⟩, ⟨"COM1", SerialPortTypeInfo.unknown⟩]).map
          (fun d => d.port_name)).Nodup :=
  (C5_amended_sorted_perm
    [⟨"COM2", SerialPortTypeInfo.unknown⟩, ⟨"COM1", SerialPortTypeInfo.unknown⟩]).2.2
    (by decide)

/-! ## Non-Windows spooler claims -/

/-- C6: on the build without a native spooler API, `list_windows_printers`
returns the empty list as a success, and `spooler_print_raw` fails for
every printer name and buffer with the unsupported-platform error, never
succeeding. -/
theorem C6_nonwindows_unsupported (printer_name : String) (data : List Nat) :
    nonwindows_printing.list_windows_printers = Except.ok [] ∧
    nonwindows_printing.spooler_print_raw printer_name data =
      Except.error "Windows spooler transport is only available on Windows builds" ∧
    ∀ (n2 : String) (d2 : List Nat),
      nonwindows_printing.spooler_print_raw n2 d2 ≠ Except.ok () :=
  ⟨rfl, rfl, fun _ _ h => Except.noConfusion h⟩

/-- Witness for C6 at a concrete name and buffer. -/
theorem C6_nonwindows_unsupported_witness :
    nonwindows_printing.spooler_print_raw "EPSON TM-T20" [27, 64] =
      Except.error "Windows spooler transport is only available on Windows builds" :=
  (C6_nonwindows_unsupported "EPSON TM-T20" [27, 64]).2.1

/-! ## TCP transport claims -/

/-- C8: once resolution yields an address, connect succeeds and the whole
buffer is accepted by write, `tcp_print_escpos` returns success, and it
does so for every flush outcome — a flush failure is never surfaced. -/
theorem C8_tcp_flush_swallowed (env : TcpEnv) (host : String) (port : Nat)
    (data : List Nat) (hres : env.resolveErr = none) (haddr : env.addrs ≠ [])
    (hconn : env.connectErr = none) (hwrite : env.writeErr = none) :
    tcp_print_escpos env host port data = Except.ok () ∧
    ∀ f, tcp_print_escpos (TcpEnv.mk env.resolveErr env.addrs env.connectErr env.writeErr f)
        host port data = Except.ok () := by
  rcases env with ⟨r, addrs, c, w, fl⟩
  simp only at hres hconn hwrite
  subst hres
  subst hconn
  subst hwrite
  cases addrs with
  | nil => exact absurd rfl haddr
  | cons a rest => exact ⟨rfl, fun _ => rfl⟩

/-- Witness for C8: a connection whose flush fails still reports success. -/
theorem C8_tcp_flush_swallowed_witness :
    tcp_print_escpos ⟨none, [0], none, none, some "flush failed"⟩ "192.168.1.50" 9100
      [27, 64] = Except.ok () :=
  (C8_tcp_flush_swallowed ⟨none, [0], none, none, some "flush failed"⟩ "192.168.1.50" 9100
    [27, 64] rfl (by simp) rfl rfl).1
